import Mathlib

/-!
Verification development for the Informatica_Load_Metadata_to_SQL repository.

The repository has two Python scripts:
* `load_excel.py` — loads spreadsheet files into a SQL database, inferring
  column types per dialect and provisioning tables (create / drop+recreate /
  truncate / append) once per table per run;
* `extract_from_idmc.py` — authenticates against a cloud catalog service,
  starts an export job, polls it to completion and downloads the artifact.

Below, each relevant source function is shallowly embedded as an executable
Lean definition, and the stated properties are proved about those
definitions.  External effects (database cursor, HTTP transport, clock,
filesystem) are modelled by explicit inputs (oracle results such as
`table_exists` answers, response records, modification times) and explicit
outputs (lists of issued SQL operations, `Except` results).
-/

namespace LoadExcel

/-- One pandas column as observed by `infer_sql_type` in `load_excel.py`:
the code inspects only `col_series.isnull().any()` and `str(col_series.dtype)`,
so the embedding records exactly those two observations. -/
structure ColSeries where
  dtype : String
  hasNull : Bool
deriving DecidableEq, Repr

/-- Entry `sqlserver` of `SQL_TYPE_MAPPING` from `load_excel.py`. -/
def sqlserverTypes : List (String × String) :=
  [("int64", "BIGINT"), ("float64", "FLOAT"), ("object", "VARCHAR(4000)"),
   ("datetime64[ns]", "DATETIME"), ("bool", "BIT")]

/-- Entry `oracle` of `SQL_TYPE_MAPPING` from `load_excel.py`. -/
def oracleTypes : List (String × String) :=
  [("int64", "NUMBER"), ("float64", "FLOAT"), ("object", "VARCHAR2(4000)"),
   ("datetime64[ns]", "DATE"), ("bool", "NUMBER(1)")]

/-- Entry `snowflake` of `SQL_TYPE_MAPPING` from `load_excel.py`. -/
def snowflakeTypes : List (String × String) :=
  [("int64", "NUMBER"), ("float64", "FLOAT"), ("object", "VARCHAR"),
   ("datetime64[ns]", "TIMESTAMP_NTZ"), ("bool", "BOOLEAN")]

/-- Entry `databricks` of `SQL_TYPE_MAPPING` from `load_excel.py`. -/
def databricksTypes : List (String × String) :=
  [("int64", "BIGINT"), ("float64", "DOUBLE"), ("object", "STRING"),
   ("datetime64[ns]", "TIMESTAMP"), ("bool", "BOOLEAN")]

/-- Entry `mysql` of `SQL_TYPE_MAPPING` from `load_excel.py`. -/
def mysqlTypes : List (String × String) :=
  [("int64", "BIGINT"), ("float64", "DOUBLE"), ("object", "VARCHAR(255)"),
   ("datetime64[ns]", "DATETIME"), ("bool", "TINYINT(1)")]

/-- Entry `postgres` of `SQL_TYPE_MAPPING` from `load_excel.py`. -/
def postgresTypes : List (String × String) :=
  [("int64", "BIGINT"), ("float64", "DOUBLE PRECISION"), ("object", "TEXT"),
   ("datetime64[ns]", "TIMESTAMP"), ("bool", "BOOLEAN")]

/-- Table `SQL_TYPE_MAPPING` from `load_excel.py`: one type map per dialect. -/
def SQL_TYPE_MAPPING : List (String × List (String × String)) :=
  [("sqlserver", sqlserverTypes), ("oracle", oracleTypes),
   ("snowflake", snowflakeTypes), ("databricks", databricksTypes),
   ("mysql", mysqlTypes), ("postgres", postgresTypes)]

/-- Python `dict.get(k)` on a type map, embedded as association-list lookup. -/
def dictGet (m : List (String × String)) (k : String) : Option String :=
  m.lookup k

/-- Function `infer_sql_type(col_series, sql_types_map)` from `load_excel.py`.
Returns the map entry for `'object'` (default `'VARCHAR(255)'`) when the
series has any null; otherwise looks up the dtype string and falls back to
the same `'object'` default when the entry is missing; the `if not sql_type`
test in the source is Python falsiness, hence the extra empty-string check. -/
def infer_sql_type (s : ColSeries) (m : List (String × String)) : String :=
  if s.hasNull then
    (dictGet m "object").getD "VARCHAR(255)"
  else
    match dictGet m s.dtype with
    | none => (dictGet m "object").getD "VARCHAR(255)"
    | some t => if t = "" then (dictGet m "object").getD "VARCHAR(255)" else t

/-- Characters removed by Python `str.strip()` (the ASCII whitespace set). -/
def isPySpace (c : Char) : Bool :=
  c = ' ' || c = '\t' || c = '\n' || c = '\r' || c = '\x0b' || c = '\x0c'

/-- Python `s.strip()`: drop leading and trailing whitespace. -/
def pyStrip (s : String) : String :=
  String.mk (((s.toList.dropWhile isPySpace).reverse.dropWhile isPySpace).reverse)

/-- Python `s.replace(" ", "_")`: replace every space character (only the
space character, not other whitespace) by an underscore. -/
def pyReplaceSpace (s : String) : String :=
  String.mk (s.toList.map (fun c => if c = ' ' then '_' else c))

/-- Expression `sheet_name.strip().replace(" ", "_")` — the target table name computed
at line 228 of `load_excel.py`. -/
def tableNameOfSheet (sheetName : String) : String :=
  pyReplaceSpace (pyStrip sheetName)

/-- Modelled from the spec: the claim's own normalization, "the sheet name
normalized by replacing whitespace with underscores", kept separate so it can
be compared with `tableNameOfSheet`, the normalization the source performs. -/
def specNormalizeWhitespace (s : String) : String :=
  String.mk (s.toList.map (fun c => if isPySpace c then '_' else c))

/-- The flags of `DBHandler` that drive table provisioning. -/
structure DBHandler where
  dropTable : Bool
  truncateTable : Bool
deriving DecidableEq, Repr

/-- One SQL statement issued against the connection, abstracted to the
statement kind and the target table (column lists are irrelevant to the
provisioning claims). -/
inductive Op where
  | drop (table : String)
  | create (table : String)
  | truncate (table : String)
  | insert (table : String)
deriving DecidableEq, Repr

/-- Method `DBHandler.drop_table_if_needed`: returns without SQL unless the
`drop_table` flag is set, otherwise issues one `DROP TABLE`. -/
def drop_table_if_needed (h : DBHandler) (t : String) : List Op :=
  if !h.dropTable then [] else [Op.drop t]

/-- Method `DBHandler.truncate_table_if_needed`: returns without SQL when the
`drop_table` flag is set, or when `truncate_table` is unset; otherwise issues
one `TRUNCATE TABLE`. -/
def truncate_table_if_needed (h : DBHandler) (t : String) : List Op :=
  if h.dropTable then []
  else if !h.truncateTable then []
  else [Op.truncate t]

/-- The per-sheet provisioning-and-insert step of `process_excel_files`
(lines 230–251 of `load_excel.py`).  `tableExists` is the oracle answer of
`db_handler.table_exists(table_name)` for this encounter; `p` is the
`processed_tables` set.  Returns the issued statements and the updated set. -/
def processSheet (h : DBHandler) (p : List String) (t : String)
    (tableExists : Bool) : List Op × List String :=
  let pre : List Op × List String :=
    if tableExists then
      if h.dropTable then
        if t ∉ p then
          (drop_table_if_needed h t ++ [Op.create t], t :: p)
        else ([], p)
      else
        if h.truncateTable then
          if t ∉ p then (truncate_table_if_needed h t, t :: p)
          else ([], p)
        else ([], p)
    else ([Op.create t], t :: p)
  (pre.1 ++ [Op.insert t], pre.2)

/-- The sheet loop of `process_excel_files`: each encounter is a sheet name
together with the oracle answer of `table_exists` at that point; the table
name is computed from the sheet name as at line 228.  Returns all issued
statements and the final `processed_tables` set. -/
def process_excel_files (h : DBHandler) :
    List (String × Bool) → List String → List Op × List String
  | [], p => ([], p)
  | (sheetName, ex) :: rest, p =>
    let t := tableNameOfSheet sheetName
    let r := processSheet h p t ex
    let rr := process_excel_files h rest r.2
    (r.1 ++ rr.1, rr.2)

/-- What `find_input_file` observes of the filesystem: whether each of the
two candidate files exists, and their modification times (`os.path.getmtime`
values, modelled as an ordered type). -/
structure FSView where
  zipExists : Bool
  xlsxExists : Bool
  zipMtime : Int
  xlsxMtime : Int
deriving DecidableEq, Repr

/-- Function `find_input_file(base_path)` from `load_excel.py` (lines 275–294): when
both `base.zip` and `base.xlsx` exist, pick the zip exactly when its
modification time is strictly greater; when only one exists, pick it; when
neither exists, raise `FileNotFoundError`. -/
def find_input_file (fs : FSView) (basePath : String) : Except String String :=
  let zipPath := basePath ++ ".zip"
  let xlsxPath := basePath ++ ".xlsx"
  if fs.zipExists && fs.xlsxExists then
    if fs.zipMtime > fs.xlsxMtime then Except.ok zipPath else Except.ok xlsxPath
  else if fs.zipExists then Except.ok zipPath
  else if fs.xlsxExists then Except.ok xlsxPath
  else Except.error ("Neither " ++ zipPath ++ " nor " ++ xlsxPath ++ " found.")

end LoadExcel

namespace ExtractIdmc

/-- Python falsiness of a `dict.get` result on a string field:
`not x` is true when the key is absent (`None`) or maps to `""`. -/
def pyFalsy : Option String → Bool
  | none => true
  | some s => s = ""

/-- The fields of the login response body that `login` reads
(`data.get("sessionId")`, `data.get("currentOrgId")`); `none` models an
absent key.  The transport status is assumed successful
(`raise_for_status` passed), as in the claim. -/
structure LoginResponse where
  sessionId : Option String
  currentOrgId : Option String
deriving DecidableEq, Repr

/-- Function `login(pod, username, password)` from `extract_from_idmc.py`
(lines 29–35), given the parsed response body: raises when
`not session_id or not org_id`, otherwise returns the pair. -/
def login (r : LoginResponse) : Except String (String × String) :=
  if pyFalsy r.sessionId || pyFalsy r.currentOrgId then
    Except.error "Login failed, missing sessionId or currentOrgId"
  else
    Except.ok (r.sessionId.getD "", r.currentOrgId.getD "")

/-- Whether an `Except` computation ended in the error case. -/
def isError {ε α : Type} : Except ε α → Bool
  | Except.error _ => true
  | Except.ok _ => false

/-- Outcome of the `check_job_status` polling loop, with the number of
`time.sleep(poll_interval)` calls performed.  `exhausted` marks a finite
status sequence that ran out before a terminal status (the real loop would
keep polling). -/
inductive PollOutcome where
  | completed (sleeps : Nat)
  | failed (status : String) (sleeps : Nat)
  | exhausted (sleeps : Nat)
deriving DecidableEq, Repr

/-- The `while True` loop of `check_job_status` (lines 88–101 of
`extract_from_idmc.py`), driven by the finite sequence of statuses the
successive polls would return; `n` counts sleeps performed so far.
`"COMPLETED"` breaks with success; `"FAILED"`, `"CANCELED"`, `"ERROR"` raise
carrying the status; any other status sleeps once and polls again. -/
def check_job_status : List String → Nat → PollOutcome
  | [], n => PollOutcome.exhausted n
  | st :: rest, n =>
    if st = "COMPLETED" then PollOutcome.completed n
    else if st = "FAILED" ∨ st = "CANCELED" ∨ st = "ERROR" then
      PollOutcome.failed st n
    else check_job_status rest (n + 1)

/-- The literal pattern prefix of the regex `filename="([^"]+)"` used by
`download_export_file`. -/
def filenamePat : List Char := "filename=\"".toList

/-- Whether `pat` is a prefix of `cs`. -/
def listStartsWith : List Char → List Char → Bool
  | [], _ => true
  | _ :: _, [] => false
  | p :: ps, c :: cs => p = c && listStartsWith ps cs

/-- Model of the Python call searching `filename="([^"]+)"` in `s`, on the character list of `s`:
scan left to right for the leftmost position where the literal
`filename="` is followed by at least one non-quote character and then a
closing quote; return the captured group.  (The greedy `[^"]+` needs no
backtracking here: the maximal non-quote run matches exactly when it is
nonempty and followed by `"`.) -/
def reSearchFilenameAux : List Char → Option (List Char)
  | [] => none
  | c :: rest =>
    if listStartsWith filenamePat (c :: rest) then
      let after := (c :: rest).drop filenamePat.length
      let run := after.takeWhile (fun ch => ch ≠ '"')
      match run with
      | [] => reSearchFilenameAux rest
      | _ :: _ =>
        match after.drop run.length with
        | '"' :: _ => some run
        | _ => reSearchFilenameAux rest
    else reSearchFilenameAux rest

/-- String wrapper of `reSearchFilenameAux`. -/
def re_search_filename (s : String) : Option String :=
  (reSearchFilenameAux s.toList).map String.mk

/-- The filename-resolution logic of `download_export_file`
(lines 114–125 of `extract_from_idmc.py`): take the regex capture from the
`Content-Disposition` header when the header is present and the pattern
matches; if `not filename` (no header, no match — or an empty capture,
impossible for this regex) fall back to `export_filename_base + ".bin"`. -/
def download_export_file (contentDisposition : Option String)
    (exportFilenameBase : String) : String :=
  let filename : Option String :=
    match contentDisposition with
    | some cd => re_search_filename cd
    | none => none
  match filename with
  | some f => if f = "" then exportFilenameBase ++ ".bin" else f
  | none => exportFilenameBase ++ ".bin"

end ExtractIdmc

section Theorems

open LoadExcel ExtractIdmc

/-- A successful association-list lookup returns one of the stored values. -/
lemma lookup_mem_values (m : List (String × String)) (k t : String)
    (h : m.lookup k = some t) : t ∈ m.map Prod.snd := by
  induction m with
  | nil => simp [List.lookup] at h
  | cons a rest ih =>
    obtain ⟨k1, v1⟩ := a
    simp only [List.lookup] at h
    split at h
    · cases h
      simp
    · simpa using Or.inr (ih h)

/-- Every value stored in one of the six dialect type maps is a nonempty
string, so the Python falsiness test `if not sql_type` never fires on a
successful lookup. -/
lemma dialect_values_nonempty (d : String) (m : List (String × String))
    (hm : (d, m) ∈ SQL_TYPE_MAPPING) (k t : String)
    (h : dictGet m k = some t) : t ≠ "" := by
  have hmem := lookup_mem_values m k t h
  simp only [SQL_TYPE_MAPPING, Prod.mk.injEq, List.mem_cons, List.not_mem_nil,
    or_false] at hm
  rcases hm with ⟨hd, hmap⟩ | ⟨hd, hmap⟩ | ⟨hd, hmap⟩ | ⟨hd, hmap⟩ | ⟨hd, hmap⟩ | ⟨hd, hmap⟩ <;>
    subst hmap <;>
    simp only [sqlserverTypes, oracleTypes, snowflakeTypes, databricksTypes,
      mysqlTypes, postgresTypes, List.map, List.mem_cons, List.not_mem_nil,
      or_false] at hmem <;>
    rcases hmem with h2 | h2 | h2 | h2 | h2 <;> subst h2 <;> decide

/-- C1: for every column series and every one of the six dialect type maps,
if the series contains at least one null value then `infer_sql_type` returns
the map's `'object'` entry, whatever the series' dtype is. -/
theorem c1_null_forces_text_type (d : String) (m : List (String × String))
    (s : ColSeries) (hm : (d, m) ∈ SQL_TYPE_MAPPING) (hn : s.hasNull = true) :
    ∃ t, dictGet m "object" = some t ∧ infer_sql_type s m = t := by
  have hinfer : infer_sql_type s m = (dictGet m "object").getD "VARCHAR(255)" := by
    simp [infer_sql_type, hn]
  simp only [SQL_TYPE_MAPPING, Prod.mk.injEq, List.mem_cons, List.not_mem_nil,
    or_false] at hm
  rcases hm with ⟨hd, hmap⟩ | ⟨hd, hmap⟩ | ⟨hd, hmap⟩ | ⟨hd, hmap⟩ | ⟨hd, hmap⟩ | ⟨hd, hmap⟩ <;>
    subst hmap <;> exact ⟨_, rfl, hinfer⟩

/-- Witness for C1 at the `postgres` map and an all-null integer column. -/
theorem c1_null_forces_text_type_witness :
    ("postgres", postgresTypes) ∈ SQL_TYPE_MAPPING ∧
    (⟨"int64", true⟩ : ColSeries).hasNull = true ∧
    ∃ t, dictGet postgresTypes "object" = some t ∧
      infer_sql_type ⟨"int64", true⟩ postgresTypes = t :=
  ⟨by decide, rfl, c1_null_forces_text_type "postgres" postgresTypes ⟨"int64", true⟩ (by decide) rfl⟩

/-- C8: on a null-free series and any of the six dialect maps,
`infer_sql_type` returns the map's entry for the series' dtype when one
exists, and otherwise returns the map's `'object'` entry; in both cases it
returns a usable type string (the function is total by construction). -/
theorem c8_null_free_total_mapping (d : String) (m : List (String × String))
    (s : ColSeries) (hm : (d, m) ∈ SQL_TYPE_MAPPING) (hn : s.hasNull = false) :
    (∀ t, dictGet m s.dtype = some t → infer_sql_type s m = t) ∧
    (dictGet m s.dtype = none →
      ∃ t, dictGet m "object" = some t ∧ infer_sql_type s m = t) := by
  constructor
  · intro t ht
    have hne : t ≠ "" := dialect_values_nonempty d m hm s.dtype t ht
    simp [infer_sql_type, hn, ht, hne]
  · intro hnone
    have hinfer : infer_sql_type s m = (dictGet m "object").getD "VARCHAR(255)" := by
      simp [infer_sql_type, hn, hnone]
    simp only [SQL_TYPE_MAPPING, Prod.mk.injEq, List.mem_cons, List.not_mem_nil,
      or_false] at hm
    rcases hm with ⟨hd, hmap⟩ | ⟨hd, hmap⟩ | ⟨hd, hmap⟩ | ⟨hd, hmap⟩ | ⟨hd, hmap⟩ | ⟨hd, hmap⟩ <;>
      subst hmap <;> exact ⟨_, rfl, hinfer⟩

/-- Witness for C8 at the `oracle` map: a mapped dtype (`bool`) returns its
entry, an unmapped dtype falls back to the `'object'` entry. -/
theorem c8_null_free_total_mapping_witness :
    ("oracle", oracleTypes) ∈ SQL_TYPE_MAPPING ∧
    infer_sql_type ⟨"bool", false⟩ oracleTypes = "NUMBER(1)" ∧
    ∃ t, dictGet oracleTypes "object" = some t ∧
      infer_sql_type ⟨"weird", false⟩ oracleTypes = t :=
  ⟨by decide,
   (c8_null_free_total_mapping "oracle" oracleTypes ⟨"bool", false⟩ (by decide) rfl).1
     "NUMBER(1)" rfl,
   (c8_null_free_total_mapping "oracle" oracleTypes ⟨"weird", false⟩ (by decide) rfl).2 rfl⟩

/-- The per-sheet step only ever grows the `processed_tables` set. -/
lemma mem_processSheet_processed (h : DBHandler) (p : List String) (t : String)
    (ex : Bool) (u : String) (hu : u ∈ p) : u ∈ (processSheet h p t ex).2 := by
  simp only [processSheet]
  repeat' split
  all_goals simp [hu]

/-- The sheet loop only ever grows the `processed_tables` set. -/
lemma mem_process_excel_files_processed (h : DBHandler)
    (encs : List (String × Bool)) (p : List String) (u : String) (hu : u ∈ p) :
    u ∈ (process_excel_files h encs p).2 := by
  induction encs generalizing p with
  | nil => simpa [process_excel_files] using hu
  | cons e rest ih =>
    obtain ⟨name, ex⟩ := e
    simp only [process_excel_files]
    exact ih _ (mem_processSheet_processed h p (tableNameOfSheet name) ex u hu)

/-- C2: in drop-table mode, a table that exists and was not yet processed
this run gets exactly one drop, then one create, then the insert, and is
recorded as processed; a table already recorded gets only the insert; and
the record persists through the rest of the run. -/
theorem c2_drop_mode_provisions_once (h : DBHandler) (hd : h.dropTable = true)
    (t : String) :
    (∀ p name encs, tableNameOfSheet name = t → t ∉ p →
      process_excel_files h ((name, true) :: encs) p =
        ([Op.drop t, Op.create t, Op.insert t] ++
          (process_excel_files h encs (t :: p)).1,
         (process_excel_files h encs (t :: p)).2)) ∧
    (∀ p name encs, tableNameOfSheet name = t → t ∈ p →
      process_excel_files h ((name, true) :: encs) p =
        (Op.insert t :: (process_excel_files h encs p).1,
         (process_excel_files h encs p).2)) ∧
    (∀ p encs, t ∈ p → t ∈ (process_excel_files h encs p).2) := by
  refine ⟨?_, ?_, ?_⟩
  · intro p name encs hname hnp
    simp [process_excel_files, hname, processSheet, hd, hnp, drop_table_if_needed]
  · intro p name encs hname hp
    simp [process_excel_files, hname, processSheet, hd, hp]
  · intro p encs hp
    exact mem_process_excel_files_processed h encs p t hp

/-- Witness for C2: a run in drop-mode meeting table `T` twice, the table
reported as existing both times. -/
theorem c2_drop_mode_provisions_once_witness :
    (⟨true, false⟩ : DBHandler).dropTable = true ∧
    tableNameOfSheet "T" = "T" ∧ ("T" : String) ∉ ([] : List String) ∧
    ("T" : String) ∈ ["T"] ∧
    process_excel_files ⟨true, false⟩ [("T", true), ("T", true)] [] =
      ([Op.drop "T", Op.create "T", Op.insert "T"] ++
        (process_excel_files ⟨true, false⟩ [("T", true)] ["T"]).1,
       (process_excel_files ⟨true, false⟩ [("T", true)] ["T"]).2) ∧
    process_excel_files ⟨true, false⟩ [("T", true)] ["T"] =
      (Op.insert "T" :: (process_excel_files ⟨true, false⟩ [] ["T"]).1,
       (process_excel_files ⟨true, false⟩ [] ["T"]).2) :=
  ⟨rfl, rfl, by decide, by decide,
   (c2_drop_mode_provisions_once ⟨true, false⟩ rfl "T").1 [] "T" [("T", true)]
     rfl (by decide),
   (c2_drop_mode_provisions_once ⟨true, false⟩ rfl "T").2.1 ["T"] "T" []
     rfl (by decide)⟩

/-- With the drop flag set, the per-sheet step never issues a truncate. -/
lemma truncate_not_in_processSheet (h : DBHandler) (hd : h.dropTable = true)
    (p : List String) (t2 : String) (ex : Bool) (t : String) :
    Op.truncate t ∉ (processSheet h p t2 ex).1 := by
  simp only [processSheet]
  repeat' split
  all_goals simp_all [drop_table_if_needed, truncate_table_if_needed]

/-- C9: when the drop flag is set, `truncate_table_if_needed` returns
without issuing SQL, and no run ever issues a truncate statement — drop
takes priority over truncate, whatever the truncate flag says. -/
theorem c9_drop_overrides_truncate (h : DBHandler) (hd : h.dropTable = true) :
    (∀ t, truncate_table_if_needed h t = []) ∧
    (∀ encs p t, Op.truncate t ∉ (process_excel_files h encs p).1) := by
  constructor
  · intro t
    simp [truncate_table_if_needed, hd]
  · intro encs
    induction encs with
    | nil => intro p t; simp [process_excel_files]
    | cons e rest ih =>
      intro p t
      obtain ⟨name, ex⟩ := e
      simp only [process_excel_files, List.mem_append, not_or]
      exact ⟨truncate_not_in_processSheet h hd p (tableNameOfSheet name) ex t,
             ih _ t⟩

/-- Witness for C9 with both flags set: the truncate helper is inert and a
run over an existing table issues no truncate. -/
theorem c9_drop_overrides_truncate_witness :
    (⟨true, true⟩ : DBHandler).dropTable = true ∧
    truncate_table_if_needed ⟨true, true⟩ "T" = [] ∧
    Op.truncate "T" ∉ (process_excel_files ⟨true, true⟩ [("T", true)] []).1 :=
  ⟨rfl, (c9_drop_overrides_truncate ⟨true, true⟩ rfl).1 "T",
   (c9_drop_overrides_truncate ⟨true, true⟩ rfl).2 [("T", true)] [] "T"⟩

/-- C3: one poll step maps `"COMPLETED"` to success with the sleeps done so
far, a status in `{"FAILED", "CANCELED", "ERROR"}` to failure carrying that
status, and any other status to one more sleep and another poll; on the
status sequence `["RUNNING", "RUNNING", "COMPLETED"]` the loop succeeds
after exactly 2 sleeps. -/
theorem c3_poll_terminal_mapping (st : String) (rest : List String) (n : Nat) :
    (st = "COMPLETED" →
      check_job_status (st :: rest) n = PollOutcome.completed n) ∧
    ((st = "FAILED" ∨ st = "CANCELED" ∨ st = "ERROR") →
      check_job_status (st :: rest) n = PollOutcome.failed st n) ∧
    (st ≠ "COMPLETED" → st ≠ "FAILED" → st ≠ "CANCELED" → st ≠ "ERROR" →
      check_job_status (st :: rest) n = check_job_status rest (n + 1)) ∧
    check_job_status ["RUNNING", "RUNNING", "COMPLETED"] 0 =
      PollOutcome.completed 2 := by
  refine ⟨?_, ?_, ?_, rfl⟩
  · intro h
    simp [check_job_status, h]
  · intro h
    have hne : st ≠ "COMPLETED" := by
      rcases h with h | h | h <;> subst h <;> decide
    simp [check_job_status, hne, h]
  · intro h1 h2 h3 h4
    simp [check_job_status, h1, h2, h3, h4]

/-- Witness for C3: one instance of each transition, and the fake
two-sleep trace. -/
theorem c3_poll_terminal_mapping_witness :
    check_job_status ["COMPLETED"] 0 = PollOutcome.completed 0 ∧
    check_job_status ["CANCELED"] 5 = PollOutcome.failed "CANCELED" 5 ∧
    check_job_status ["RUNNING"] 0 = check_job_status [] 1 ∧
    check_job_status ["RUNNING", "RUNNING", "COMPLETED"] 0 =
      PollOutcome.completed 2 :=
  ⟨(c3_poll_terminal_mapping "COMPLETED" [] 0).1 rfl,
   (c3_poll_terminal_mapping "CANCELED" [] 5).2.1 (Or.inr (Or.inl rfl)),
   (c3_poll_terminal_mapping "RUNNING" [] 0).2.2.1 (by decide) (by decide)
     (by decide) (by decide),
   (c3_poll_terminal_mapping "RUNNING" ["RUNNING", "COMPLETED"] 0).2.2.2⟩

/-- C4 counterexample: the response `{sessionId: "s"}` (no `currentOrgId`)
does not lack both fields, yet `login` fails — so "fails iff the response
lacks both fields" is false at this input. -/
theorem c4_counterexample :
    isError (login ⟨some "s", none⟩) = true ∧
    ¬ ((⟨some "s", none⟩ : LoginResponse).sessionId = none ∧
       (⟨some "s", none⟩ : LoginResponse).currentOrgId = none) := by
  exact ⟨rfl, fun h => Option.noConfusion h.1⟩

/-- C4 amended: `login` fails exactly when the `sessionId` field or the
`currentOrgId` field is missing or empty (Python falsiness of either value,
not of both); otherwise it returns the pair from the response. -/
theorem c4_login_error_iff_either_missing (r : LoginResponse) :
    (isError (login r) = true ↔
      (pyFalsy r.sessionId = true ∨ pyFalsy r.currentOrgId = true)) ∧
    (∀ s o, r.sessionId = some s → r.currentOrgId = some o → s ≠ "" → o ≠ "" →
      login r = Except.ok (s, o)) := by
  constructor
  · constructor
    · intro h
      by_cases h1 : pyFalsy r.sessionId = true
      · exact Or.inl h1
      · by_cases h2 : pyFalsy r.currentOrgId = true
        · exact Or.inr h2
        · simp [login, h1, h2, isError] at h
    · intro h
      rcases h with h | h <;> simp [login, h, isError]
  · intro s o hs ho hsne hone
    simp [login, pyFalsy, hs, ho, hsne, hone]

/-- Witness for C4's amendment: a complete response yields the pair, and a
response missing only `sessionId` already fails. -/
theorem c4_login_error_iff_either_missing_witness :
    login ⟨some "s", some "o"⟩ = Except.ok ("s", "o") ∧
    isError (login ⟨none, some "o"⟩) = true :=
  ⟨(c4_login_error_iff_either_missing ⟨some "s", some "o"⟩).2 "s" "o" rfl rfl
     (by decide) (by decide),
   (c4_login_error_iff_either_missing ⟨none, some "o"⟩).1.mpr (Or.inl rfl)⟩

/-- C5 counterexample: on the sheet name `" a\tb"` the code's table name
(strip, then replace only spaces) differs from the claim's normalization
(replace every whitespace character with an underscore). -/
theorem c5_counterexample :
    tableNameOfSheet " a\tb" = "a\tb" ∧
    specNormalizeWhitespace " a\tb" = "_a_b" ∧
    tableNameOfSheet " a\tb" ≠ specNormalizeWhitespace " a\tb" :=
  ⟨rfl, rfl, by decide⟩

/-- C5 amended: the target table name is the sheet name with leading and
trailing whitespace stripped and each space character (only spaces, not all
whitespace) replaced by an underscore; two sheets whose names yield the same
such name are processed against the same target table. -/
theorem c5_normalized_names_share_table (s1 s2 : String)
    (h : tableNameOfSheet s1 = tableNameOfSheet s2) (hdl : DBHandler)
    (p : List String) (ex : Bool) :
    process_excel_files hdl [(s1, ex)] p = process_excel_files hdl [(s2, ex)] p := by
  simp only [process_excel_files, h]

/-- Witness for C5's amendment: `"My Sheet"` and `" My Sheet "` normalize to
the same table name, and a run treats them identically. -/
theorem c5_normalized_names_share_table_witness :
    tableNameOfSheet "My Sheet" = tableNameOfSheet " My Sheet " ∧
    process_excel_files ⟨false, false⟩ [("My Sheet", false)] [] =
      process_excel_files ⟨false, false⟩ [(" My Sheet ", false)] [] :=
  ⟨by decide,
   c5_normalized_names_share_table "My Sheet" " My Sheet " (by decide)
     ⟨false, false⟩ [] false⟩

/-- The capture group of `filename="([^"]+)"` is never empty. -/
lemma reSearchFilenameAux_ne_nil (l : List Char) (r : List Char)
    (h : reSearchFilenameAux l = some r) : r ≠ [] := by
  induction l with
  | nil => simp [reSearchFilenameAux] at h
  | cons c rest ih =>
    simp only [reSearchFilenameAux] at h
    split at h
    · split at h
      · exact ih h
      · split at h
        · cases h
          simp_all
        · exact ih h
    · exact ih h

/-- C6: when the regex search over the `Content-Disposition` header captures
a filename, the downloader saves to exactly that name; when the header is
absent it saves to `exportFilenameBase ++ ".bin"`. -/
theorem c6_filename_resolution (cd base name : String) :
    (re_search_filename cd = some name →
      download_export_file (some cd) base = name) ∧
    download_export_file none base = base ++ ".bin" := by
  constructor
  · intro h
    have hne : name ≠ "" := by
      obtain ⟨l, hl, hmk⟩ : ∃ l, reSearchFilenameAux cd.toList = some l ∧
          String.mk l = name := by
        simpa [re_search_filename] using h
      have hnil := reSearchFilenameAux_ne_nil cd.toList l hl
      intro hemp
      apply hnil
      subst hmk
      cases l with
      | nil => rfl
      | cons a as => exact List.noConfusion (congrArg String.data hemp)
    simp [download_export_file, h, hne]
  · simp [download_export_file]

/-- Witness for C6 at the spec's example header. -/
theorem c6_filename_resolution_witness :
    re_search_filename "attachment; filename=\"Export_1.xlsx\"" =
      some "Export_1.xlsx" ∧
    download_export_file (some "attachment; filename=\"Export_1.xlsx\"")
      "Export" = "Export_1.xlsx" ∧
    download_export_file none "Export" = "Export" ++ ".bin" :=
  ⟨rfl,
   (c6_filename_resolution "attachment; filename=\"Export_1.xlsx\"" "Export"
     "Export_1.xlsx").1 rfl,
   (c6_filename_resolution "" "Export" "").2⟩

/-- C7: with both candidate files present, `find_input_file` picks the zip
exactly when its modification time is strictly greater and the spreadsheet
when its own is strictly greater; with one candidate present it picks that
one; with neither present it raises `FileNotFoundError`. -/
theorem c7_find_input_file_newest (fs : FSView) (base : String) :
    (fs.zipExists = true → fs.xlsxExists = true →
      fs.zipMtime > fs.xlsxMtime →
      find_input_file fs base = Except.ok (base ++ ".zip")) ∧
    (fs.zipExists = true → fs.xlsxExists = true →
      fs.xlsxMtime > fs.zipMtime →
      find_input_file fs base = Except.ok (base ++ ".xlsx")) ∧
    (fs.zipExists = true → fs.xlsxExists = false →
      find_input_file fs base = Except.ok (base ++ ".zip")) ∧
    (fs.zipExists = false → fs.xlsxExists = true →
      find_input_file fs base = Except.ok (base ++ ".xlsx")) ∧
    (fs.zipExists = false → fs.xlsxExists = false →
      isError (find_input_file fs base) = true) := by
  refine ⟨?_, ?_, ?_, ?_, ?_⟩
  · intro h1 h2 h3
    simp [find_input_file, h1, h2, h3]
  · intro h1 h2 h3
    simp [find_input_file, h1, h2, lt_asymm h3]
  · intro h1 h2
    simp [find_input_file, h1, h2]
  · intro h1 h2
    simp [find_input_file, h1, h2]
  · intro h1 h2
    simp [find_input_file, isError, h1, h2]

/-- Witness for C7: all five cases at concrete filesystem views. -/
theorem c7_find_input_file_newest_witness :
    find_input_file ⟨true, true, 5, 3⟩ "b" = Except.ok ("b" ++ ".zip") ∧
    find_input_file ⟨true, true, 3, 5⟩ "b" = Except.ok ("b" ++ ".xlsx") ∧
    find_input_file ⟨true, false, 0, 0⟩ "b" = Except.ok ("b" ++ ".zip") ∧
    find_input_file ⟨false, true, 0, 0⟩ "b" = Except.ok ("b" ++ ".xlsx") ∧
    isError (find_input_file ⟨false, false, 0, 0⟩ "b") = true :=
  ⟨(c7_find_input_file_newest ⟨true, true, 5, 3⟩ "b").1 rfl rfl (by decide),
   (c7_find_input_file_newest ⟨true, true, 3, 5⟩ "b").2.1 rfl rfl (by decide),
   (c7_find_input_file_newest ⟨true, false, 0, 0⟩ "b").2.2.1 rfl rfl,
   (c7_find_input_file_newest ⟨false, true, 0, 0⟩ "b").2.2.2.1 rfl rfl,
   (c7_find_input_file_newest ⟨false, false, 0, 0⟩ "b").2.2.2.2 rfl rfl⟩

/-- C10: when both candidates exist with exactly equal modification times,
`find_input_file` returns the spreadsheet path — the zip wins only a strict
comparison, so ties break toward the `.xlsx` file. -/
theorem c10_mtime_tie_prefers_xlsx (fs : FSView) (base : String)
    (h1 : fs.zipExists = true) (h2 : fs.xlsxExists = true)
    (h3 : fs.zipMtime = fs.xlsxMtime) :
    find_input_file fs base = Except.ok (base ++ ".xlsx") := by
  simp [find_input_file, h1, h2, h3]

/-- Witness for C10 at equal modification times. -/
theorem c10_mtime_tie_prefers_xlsx_witness :
    find_input_file ⟨true, true, 4, 4⟩ "b" = Except.ok ("b" ++ ".xlsx") :=
  c10_mtime_tie_prefers_xlsx ⟨true, true, 4, 4⟩ "b" rfl rfl rfl

end Theorems
